import Mathlib

/-!
Verification of the MidOpen intraday-analytics core against its
natural-language specification.  Python floats are modelled as exact
rationals (display rounding to two decimals is omitted as presentation
only), wall-clock instants as integer day indices plus seconds or
minutes of day, and Python dictionaries as association lists.
-/

set_option linter.unusedVariables false

namespace MidOpen

/-! ### Market calendar

Embedding of `MarketStatusService` from
`src/nasdaq_predictor/services/market_status_service.py`.  An ET
wall-clock instant is a pair of an absolute day index (the epoch is
aligned so that `day ≡ 0 [mod 7]` falls on a Monday, matching Python
`weekday()`) and the number of seconds elapsed since that day's
midnight. -/

structure ETInstant where
  day : Int
  sec : Int
deriving DecidableEq, Repr

def ETInstant.valid (t : ETInstant) : Prop :=
  0 ≤ t.sec ∧ t.sec < 86400

instance (t : ETInstant) : Decidable t.valid := by
  unfold ETInstant.valid; infer_instance

def ETInstant.weekday (t : ETInstant) : Int := t.day.emod 7

def ETInstant.hour (t : ETInstant) : Int := t.sec / 3600

def ETInstant.minute (t : ETInstant) : Int := t.sec % 3600 / 60

def ETInstant.toSec (t : ETInstant) : Int := t.day * 86400 + t.sec

/-- Python `dt.replace(hour=h, minute=0, second=0, microsecond=0)`. -/
def ETInstant.replaceHour (t : ETInstant) (h : Int) : ETInstant :=
  ⟨t.day, h * 3600⟩

/-- Python `dt + timedelta(days=k)` (wall-clock day arithmetic). -/
def ETInstant.addDays (t : ETInstant) (k : Int) : ETInstant :=
  ⟨t.day + k, t.sec⟩

inductive MarketStatus
  | OPEN
  | CLOSED
  | MAINTENANCE
deriving DecidableEq, Repr

/-- Embedding of `MarketStatusService.is_market_open` (the ticker argument
is unused by the source logic). -/
def is_market_open (t : ETInstant) : Bool :=
  if t.weekday = 4 ∧ (t.hour > 17 ∨ (t.hour = 17 ∧ t.minute ≥ 0)) then false
  else if t.weekday = 5 then false
  else if t.weekday = 6 ∧ t.hour < 18 then false
  else if t.hour = 17 then false
  else true

/-- Embedding of `MarketStatusService.get_market_status`: the maintenance
check `hour == 17` runs first, on every day of the week. -/
def get_market_status (t : ETInstant) : MarketStatus :=
  if t.hour = 17 then .MAINTENANCE
  else if is_market_open t then .OPEN else .CLOSED

structure NextEvent where
  isOpenEvent : Bool
  eventTime : ETInstant
deriving DecidableEq, Repr

/-- Embedding of `MarketStatusService.get_next_event` (event type and
event time; the formatted strings are presentation only). -/
def get_next_event (t : ETInstant) : NextEvent :=
  if is_market_open t then
    let close_time :=
      if t.weekday < 4 then (t.replaceHour 17).addDays (4 - t.weekday)
      else if t.weekday = 4 then
        let c := t.replaceHour 17
        if c.toSec ≤ t.toSec then c.addDays 7 else c
      else if t.weekday = 6 then (t.replaceHour 17).addDays 5
      else (t.replaceHour 17).addDays 6
    ⟨false, close_time⟩
  else
    let open_time :=
      if t.weekday < 6 then (t.replaceHour 18).addDays (6 - t.weekday)
      else if t.hour < 18 then t.replaceHour 18
      else (t.replaceHour 18).addDays 7
    ⟨true, open_time⟩

/-- Python `int((event_time - current_time).total_seconds())`. -/
def countdown_seconds (t : ETInstant) : Int :=
  (get_next_event t).eventTime.toSec - t.toSec

/-- The span the C1 claim quantifies over: strictly after Friday 17:00 ET
and strictly before Sunday 18:00 ET (17:00 is second 61200, 18:00 is
second 64800). -/
def afterFridayCloseBeforeSundayOpen (t : ETInstant) : Prop :=
  (t.weekday = 4 ∧ 61200 < t.sec) ∨ t.weekday = 5 ∨ (t.weekday = 6 ∧ t.sec < 64800)

instance (t : ETInstant) : Decidable (afterFridayCloseBeforeSundayOpen t) := by
  unfold afterFridayCloseBeforeSundayOpen; infer_instance

/-- C1 counterexample: Saturday 17:30:00 ET lies strictly between Friday
17:00 and Sunday 18:00, yet `get_market_status` returns MAINTENANCE, not
CLOSED — the `hour == 17` maintenance check runs before any weekend
check, so Saturday is not always CLOSED. -/
theorem weekend_closed_counterexample :
    (⟨5, 63000⟩ : ETInstant).valid ∧
      afterFridayCloseBeforeSundayOpen ⟨5, 63000⟩ ∧
      get_market_status ⟨5, 63000⟩ = .MAINTENANCE ∧
      get_market_status ⟨5, 63000⟩ ≠ .CLOSED := by
  refine ⟨by decide, Or.inr (Or.inl (by decide)), by decide, by decide⟩

/-- C1 amended: on every instant strictly after Friday 17:00 ET and
before Sunday 18:00 ET, `get_market_status` returns MAINTENANCE during
the daily 17:00–17:59 hour (Saturday included) and CLOSED at every other
such instant. -/
theorem is_market_open_eq_false_on_weekend (t : ETInstant) (hv : t.valid)
    (hs : afterFridayCloseBeforeSundayOpen t) : is_market_open t = false := by
  obtain ⟨h0, h1⟩ := hv
  simp only [is_market_open, ETInstant.weekday, ETInstant.hour, ETInstant.minute,
    afterFridayCloseBeforeSundayOpen] at *
  split_ifs with ha hb hc hd <;> try rfl
  exfalso
  rcases hs with ⟨hw, hsec⟩ | hw | ⟨hw, hsec⟩
  · exact ha ⟨hw, Or.inl (by omega)⟩
  · exact hb hw
  · exact hc ⟨hw, by omega⟩

theorem weekend_status_amended (t : ETInstant) (hv : t.valid)
    (hs : afterFridayCloseBeforeSundayOpen t) :
    get_market_status t =
      (if t.hour = 17 then MarketStatus.MAINTENANCE else MarketStatus.CLOSED) := by
  simp [get_market_status, is_market_open_eq_false_on_weekend t hv hs]

/-- C1 amended, witness: Saturday 12:00:00 ET is CLOSED. -/
theorem weekend_status_amended_witness :
    ((⟨5, 43200⟩ : ETInstant).valid ∧ afterFridayCloseBeforeSundayOpen ⟨5, 43200⟩) ∧
      get_market_status ⟨5, 43200⟩ =
        (if (⟨5, 43200⟩ : ETInstant).hour = 17 then MarketStatus.MAINTENANCE
          else MarketStatus.CLOSED) :=
  ⟨⟨by decide, Or.inr (Or.inl (by decide))⟩,
    weekend_status_amended ⟨5, 43200⟩ (by decide) (Or.inr (Or.inl (by decide)))⟩

/-- C10: for every valid instant, `get_market_status` yields one of the
three enum states, and the next-event countdown is never negative. -/
theorem market_status_total_and_countdown_nonneg (t : ETInstant) (hv : t.valid) :
    (get_market_status t = .OPEN ∨ get_market_status t = .CLOSED ∨
      get_market_status t = .MAINTENANCE) ∧ 0 ≤ countdown_seconds t := by
  obtain ⟨h0, h1⟩ := hv
  constructor
  · unfold get_market_status
    split_ifs <;> simp
  · simp only [countdown_seconds, get_next_event, ETInstant.weekday, ETInstant.hour,
      ETInstant.toSec, ETInstant.replaceHour, ETInstant.addDays]
    split_ifs <;> simp_all <;> omega

/-- C10 witness: Wednesday 10:00:00 ET. -/
theorem market_status_total_and_countdown_nonneg_witness :
    (⟨2, 36000⟩ : ETInstant).valid ∧
      ((get_market_status ⟨2, 36000⟩ = .OPEN ∨ get_market_status ⟨2, 36000⟩ = .CLOSED ∨
        get_market_status ⟨2, 36000⟩ = .MAINTENANCE) ∧ 0 ≤ countdown_seconds ⟨2, 36000⟩) :=
  ⟨by decide, market_status_total_and_countdown_nonneg ⟨2, 36000⟩ (by decide)⟩

/-! ### Fibonacci pivot calculator

Embedding of `calculate_fibonacci_pivots` from
`src/nasdaq_predictor/api/routes/fibonacci_routes.py`. -/

structure PivotSet where
  R3 : ℚ
  R2 : ℚ
  R1 : ℚ
  PP : ℚ
  S1 : ℚ
  S2 : ℚ
  S3 : ℚ
deriving DecidableEq, Repr

def calculate_fibonacci_pivots (high low close : ℚ) : PivotSet :=
  let pp := (high + low + close) / 3
  let range_val := high - low
  { R3 := pp + 2.0 * range_val
    R2 := pp + 1.618 * range_val
    R1 := pp + 1.0 * range_val
    PP := pp
    S1 := pp - 1.0 * range_val
    S2 := pp - 1.618 * range_val
    S3 := pp - 2.0 * range_val }

/-- C5: the pivot formulas from one (high, low, close) triple, and the
exact values at H=110, L=90, C=100. -/
theorem fibonacci_pivots_formula (H L C : ℚ) :
    (calculate_fibonacci_pivots H L C).PP = (H + L + C) / 3 ∧
    (calculate_fibonacci_pivots H L C).R1 = (H + L + C) / 3 + (H - L) ∧
    (calculate_fibonacci_pivots H L C).R2 = (H + L + C) / 3 + 1.618 * (H - L) ∧
    (calculate_fibonacci_pivots H L C).R3 = (H + L + C) / 3 + 2 * (H - L) ∧
    (calculate_fibonacci_pivots H L C).S1 = (H + L + C) / 3 - (H - L) ∧
    (calculate_fibonacci_pivots H L C).S2 = (H + L + C) / 3 - 1.618 * (H - L) ∧
    (calculate_fibonacci_pivots H L C).S3 = (H + L + C) / 3 - 2 * (H - L) ∧
    ((calculate_fibonacci_pivots 110 90 100).PP = 100 ∧
      (calculate_fibonacci_pivots 110 90 100).R1 = 120 ∧
      (calculate_fibonacci_pivots 110 90 100).S1 = 80 ∧
      (calculate_fibonacci_pivots 110 90 100).R3 = 140 ∧
      (calculate_fibonacci_pivots 110 90 100).S3 = 60) := by
  unfold calculate_fibonacci_pivots
  refine ⟨rfl, by ring, by ring, by ring, by ring, by ring, by ring, by norm_num⟩

/-! ### Reference-level signal classification

Embedding of `ReferenceLevelService._calculate_signal` and
`NEAR_THRESHOLD_PCT` from
`src/nasdaq_predictor/services/reference_level_service.py`. -/

inductive Proximity
  | ABOVE
  | NEAR
  | BELOW
deriving DecidableEq, Repr

def NEAR_THRESHOLD_PCT : ℚ := 0.10

def calculate_signal (current_price reference_level : ℚ) : Proximity × Int :=
  let distance := current_price - reference_level
  let distance_pct := if reference_level ≠ 0 then |distance / reference_level * 100| else 0
  if distance_pct < NEAR_THRESHOLD_PCT then (.NEAR, 0)
  else if distance > 0 then (.ABOVE, 1)
  else (.BELOW, -1)

/-- C6: for a reference level L > 0 and price P, the signal is NEAR/0
when the absolute distance percentage is under 0.10, ABOVE/+1 when it is
at least 0.10 and P > L, and BELOW/−1 otherwise. -/
theorem signal_classification (L P : ℚ) (hL : 0 < L) :
    (|P - L| / L * 100 < 0.10 → calculate_signal P L = (.NEAR, 0)) ∧
    (0.10 ≤ |P - L| / L * 100 → P > L → calculate_signal P L = (.ABOVE, 1)) ∧
    (0.10 ≤ |P - L| / L * 100 → ¬ P > L → calculate_signal P L = (.BELOW, -1)) := by
  have hL0 : L ≠ 0 := ne_of_gt hL
  have habs : |(P - L) / L * 100| = |P - L| / L * 100 := by
    rw [abs_mul, abs_div, abs_of_pos hL]
    norm_num
  simp only [calculate_signal, NEAR_THRESHOLD_PCT, if_pos hL0, ne_eq, hL0,
    not_false_eq_true, if_true, habs]
  refine ⟨fun h => by rw [if_pos h], fun h hPL => ?_, fun h hPL => ?_⟩
  · rw [if_neg (not_lt.mpr h), if_pos (by linarith)]
  · rw [if_neg (not_lt.mpr h), if_neg (by simpa [sub_pos] using hPL)]

/-- C6 witness: L = 100, P = 150 gives ABOVE/+1; L = 100, P = 100 gives
NEAR/0; L = 100, P = 50 gives BELOW/−1. -/
theorem signal_classification_witness :
    (0 : ℚ) < 100 ∧
      (0.10 ≤ |(150 : ℚ) - 100| / 100 * 100 ∧ (150 : ℚ) > 100 ∧
        calculate_signal 150 100 = (.ABOVE, 1)) :=
  ⟨by norm_num, by norm_num,
    by norm_num, (signal_classification 100 150 (by norm_num)).2.1 (by norm_num) (by norm_num)⟩

/-! ### Timezone normalizer

Embedding of `ensure_et` and `ensure_utc` from
`src/nasdaq_predictor/utils/timezone.py`.  A Python `datetime` is either
naive (a bare wall-clock reading, which these functions interpret as
UTC via `UTC_TZ.localize`) or timezone-aware (an absolute instant plus a
zone tag); `astimezone` preserves the instant and changes the tag. -/

inductive TZ
  | utc
  | et
  | cst
  | other (n : Nat)
deriving DecidableEq, Repr

inductive PyDatetime where
  | naive (wall : Int)
  | aware (instant : Int) (zone : TZ)
deriving DecidableEq, Repr

/-- Python `UTC_TZ.localize(dt)` applied when `dt.tzinfo is None`. -/
def localizeIfNaive (d : PyDatetime) : PyDatetime :=
  match d with
  | .naive w => .aware w .utc
  | .aware i z => .aware i z

/-- Python `dt.astimezone(z)` on an aware datetime: same instant, new
zone (the naive case is unreachable in `ensure_et`/`ensure_utc`, which
localize first). -/
def awareAstimezone (d : PyDatetime) (z : TZ) : PyDatetime :=
  match d with
  | .aware i _ => .aware i z
  | .naive w => .aware w z

def ensure_et (dt : Option PyDatetime) : Option PyDatetime :=
  match dt with
  | none => none
  | some d => some (awareAstimezone (localizeIfNaive d) .et)

def ensure_utc (dt : Option PyDatetime) : Option PyDatetime :=
  match dt with
  | none => none
  | some d => some (awareAstimezone (localizeIfNaive d) .utc)

/-- C9: `ensure_et` is idempotent and the ET/UTC/ET round trip is the
identity on already-normalized values — same instant and same ET zone. -/
theorem ensure_et_idempotent_roundtrip (x : Option PyDatetime) :
    ensure_et (ensure_et x) = ensure_et x ∧
      ensure_et (ensure_utc (ensure_et x)) = ensure_et x := by
  obtain _ | (w | ⟨i, z⟩) := x <;> exact ⟨rfl, rfl⟩

/-! ### OHLCV bars

A bar carries its ET wall-clock timestamp as a calendar day index (same
Monday-aligned epoch as `ETInstant`) plus the minute within the day, and
exact rational OHLCV fields. -/

structure Bar where
  date : Int
  minuteOfDay : Int
  Open : ℚ
  High : ℚ
  Low : ℚ
  Close : ℚ
  Volume : ℚ
deriving DecidableEq, Repr

/-- Total wall-clock minute count of a bar timestamp; timestamps compare
by this value. -/
def Bar.ts (b : Bar) : Int := b.date * 1440 + b.minuteOfDay

abbrev DF := List Bar

/-- Python `series.max()` on a column: `none` on an empty frame. -/
def listMax : List ℚ → Option ℚ
  | [] => none
  | x :: xs => some (xs.foldl max x)

/-- Python `series.min()` on a column: `none` on an empty frame. -/
def listMin : List ℚ → Option ℚ
  | [] => none
  | x :: xs => some (xs.foldl min x)

/-! ### Data acquisition layer

Embedding of `DataCache` and `LiveDataFetcher.fetch_data` from
`src/nasdaq_predictor/data/fetcher_live.py`.  The wall clock
(`time.time()`) is passed explicitly as an integer `now`; the two Python
dictionaries become association lists; one provider attempt (a
`yf.Ticker(...).history` call together with the empty-frame check,
timezone normalization and validation that the `try` block performs) is
classified as either a validated successful series or a failure, exactly
the classification the `except` branch applies.  The module-level flag
`USE_MOCK_DATA` is a parameter `useMock`; the repository ships with it
set to `True`, and setting it `False` selects the live retry path the
spec describes. -/

def USE_MOCK_DATA : Bool := true

def CACHE_TTL : Int := 95

structure DataCache where
  cache : List (String × Int × DF)
  fallback : List (String × DF)
  ttl : Int
deriving DecidableEq, Repr

/-- Embedding of `DataCache.get`: a cached entry is returned only while
its age is strictly below the TTL. -/
def DataCache.get (st : DataCache) (now : Int) (key : String) : Option DF :=
  match st.cache.lookup key with
  | none => none
  | some (ts, data) => if now - ts < st.ttl then some data else none

/-- Embedding of `DataCache.set`: stores the series in the cache with
the current timestamp and unconditionally refreshes the fallback. -/
def DataCache.set (st : DataCache) (now : Int) (key : String) (data : DF) : DataCache :=
  { st with
    cache := (key, now, data) :: st.cache
    fallback := (key, data) :: st.fallback }

/-- Embedding of `DataCache.get_fallback`. -/
def DataCache.get_fallback (st : DataCache) (key : String) : Option DF :=
  st.fallback.lookup key

inductive AttemptResult
  | ok (df : DF)
  | fail
deriving DecidableEq, Repr

structure FetchOutcome where
  result : Option DF
  state : DataCache
  fetchCalls : Nat
deriving DecidableEq, Repr

def supportedIntervals : List String := ["1m", "5m", "15m", "30m", "1h", "1d", "1wk"]

/-- The `for attempt in range(max_retries)` loop of `fetch_data`: each
iteration performs one provider request; a success is cached and
returned, a failure that is not the last attempt continues after the
backoff sleep, and a failure on the last attempt falls back to
`get_fallback` (or `None` when no fallback entry exists). -/
def retryLoop (st : DataCache) (now : Int) (key : String) :
    List AttemptResult → FetchOutcome
  | [] => ⟨none, st, 0⟩
  | .ok df :: _ => ⟨some df, st.set now key df, 1⟩
  | [.fail] => ⟨st.get_fallback key, st, 1⟩
  | .fail :: a :: rest =>
      let o := retryLoop st now key (a :: rest)
      ⟨o.result, o.state, o.fetchCalls + 1⟩

/-- Embedding of `LiveDataFetcher.fetch_data`.  `attempts` lists the
classified outcomes the provider would deliver on successive attempts;
`fetchCalls` counts provider requests actually performed. -/
def fetch_data (useMock : Bool) (st : DataCache) (now : Int)
    (ticker interval : String) (use_cache : Bool) (mockDF : DF)
    (attempts : List AttemptResult) : FetchOutcome :=
  if interval ∉ supportedIntervals then ⟨none, st, 0⟩
  else
    let cache_key := ticker ++ "_" ++ interval
    match (if use_cache then st.get now cache_key else none) with
    | some d => ⟨some d, st, 0⟩
    | none =>
      if useMock then ⟨some mockDF, st.set now cache_key mockDF, 1⟩
      else retryLoop st now cache_key attempts

/-- C4: with `use_cache` set, a cache entry strictly younger than the
TTL is returned with no provider request and no state change; once the
entry is at least TTL old the cache yields nothing and the call performs
exactly one provider request, whose successful result is stored back in
the cache stamped with the current time. -/
theorem cache_ttl_behavior (st : DataCache) (now ts : Int)
    (ticker interval : String) (d mockDF df : DF) (rest : List AttemptResult)
    (hi : interval ∈ supportedIntervals)
    (hc : st.cache.lookup (ticker ++ "_" ++ interval) = some (ts, d)) :
    (now - ts < st.ttl →
      fetch_data false st now ticker interval true mockDF (.ok df :: rest) =
        ⟨some d, st, 0⟩) ∧
    (st.ttl ≤ now - ts →
      st.get now (ticker ++ "_" ++ interval) = none ∧
      fetch_data false st now ticker interval true mockDF (.ok df :: rest) =
        ⟨some df, st.set now (ticker ++ "_" ++ interval) df, 1⟩ ∧
      ((fetch_data false st now ticker interval true mockDF
          (.ok df :: rest)).state.cache.lookup (ticker ++ "_" ++ interval) =
        some (now, df))) := by
  constructor
  · intro hlt
    simp [fetch_data, hi, DataCache.get, hc, if_pos hlt]
  · intro hge
    have hnone : st.get now (ticker ++ "_" ++ interval) = none := by
      simp [DataCache.get, hc, if_neg (not_lt.mpr hge)]
    refine ⟨hnone, ?_, ?_⟩
    · simp [fetch_data, hi, hnone, retryLoop]
    · simp [fetch_data, hi, hnone, retryLoop, DataCache.set, List.lookup]

/-- C4 witness: a cache holding one entry for NQ=F 1h fetched at time 0,
queried at time 95 — exactly TTL old, so expired. -/
theorem cache_ttl_behavior_witness :
    ("1h" ∈ supportedIntervals ∧
      (DataCache.mk [("NQ=F_1h", 0, [])] [("NQ=F_1h", [])] 95).cache.lookup
        ("NQ=F" ++ "_" ++ "1h") = some (0, [])) ∧
    ((95 - 0 < (DataCache.mk [("NQ=F_1h", 0, [])] [("NQ=F_1h", [])] 95).ttl →
      fetch_data false (DataCache.mk [("NQ=F_1h", 0, [])] [("NQ=F_1h", [])] 95)
          95 "NQ=F" "1h" true [] [.ok [⟨0, 0, 1, 1, 1, 1, 0⟩]] =
        ⟨some [], DataCache.mk [("NQ=F_1h", 0, [])] [("NQ=F_1h", [])] 95, 0⟩) ∧
      ((DataCache.mk [("NQ=F_1h", 0, [])] [("NQ=F_1h", [])] 95).ttl ≤ 95 - 0 →
        (DataCache.mk [("NQ=F_1h", 0, [])] [("NQ=F_1h", [])] 95).get 95
            ("NQ=F" ++ "_" ++ "1h") = none ∧
        fetch_data false (DataCache.mk [("NQ=F_1h", 0, [])] [("NQ=F_1h", [])] 95)
            95 "NQ=F" "1h" true [] [.ok [⟨0, 0, 1, 1, 1, 1, 0⟩]] =
          ⟨some [⟨0, 0, 1, 1, 1, 1, 0⟩],
            (DataCache.mk [("NQ=F_1h", 0, [])] [("NQ=F_1h", [])] 95).set 95
              ("NQ=F" ++ "_" ++ "1h") [⟨0, 0, 1, 1, 1, 1, 0⟩], 1⟩ ∧
        ((fetch_data false (DataCache.mk [("NQ=F_1h", 0, [])] [("NQ=F_1h", [])] 95)
            95 "NQ=F" "1h" true [] [.ok [⟨0, 0, 1, 1, 1, 1, 0⟩]]).state.cache.lookup
          ("NQ=F" ++ "_" ++ "1h") = some (95, [⟨0, 0, 1, 1, 1, 1, 0⟩])))) :=
  ⟨⟨by decide, by decide⟩,
    cache_ttl_behavior (DataCache.mk [("NQ=F_1h", 0, [])] [("NQ=F_1h", [])] 95)
      95 0 "NQ=F" "1h" [] [] [⟨0, 0, 1, 1, 1, 1, 0⟩] [] (by decide) (by decide)⟩

/-- C3: after a prior successful fetch stored `df` (so a fallback entry
exists), a later `fetch_data` call whose 3 provider attempts all fail
returns exactly the previously stored series rather than an error, while
a call on a state with no fallback entry for the key returns `None`. -/
theorem fallback_on_total_failure (st st2 : DataCache) (now1 now2 now3 : Int)
    (ticker interval : String) (mock1 mock2 mock3 df : DF)
    (rest : List AttemptResult)
    (hi : interval ∈ supportedIntervals)
    (hmiss1 : st.get now1 (ticker ++ "_" ++ interval) = none)
    (hmiss2 : ((fetch_data false st now1 ticker interval true mock1
        (.ok df :: rest)).state).get now2 (ticker ++ "_" ++ interval) = none)
    (hnofb : st2.get_fallback (ticker ++ "_" ++ interval) = none)
    (hmiss3 : st2.get now3 (ticker ++ "_" ++ interval) = none) :
    (fetch_data false (fetch_data false st now1 ticker interval true mock1
        (.ok df :: rest)).state now2 ticker interval true mock2
        [.fail, .fail, .fail]).result = some df ∧
    (fetch_data false st2 now3 ticker interval true mock3
        [.fail, .fail, .fail]).result = none := by
  have h1 : fetch_data false st now1 ticker interval true mock1 (.ok df :: rest) =
      ⟨some df, st.set now1 (ticker ++ "_" ++ interval) df, 1⟩ := by
    simp [fetch_data, hi, hmiss1, retryLoop]
  constructor
  · rw [h1] at hmiss2 ⊢
    simp only [DataCache.set] at hmiss2
    simp [fetch_data, hi, hmiss2, retryLoop, DataCache.set, DataCache.get_fallback,
      List.lookup]
  · simp [fetch_data, hi, hmiss3, retryLoop, hnofb]

/-- C3 witness: an empty cache, a successful fetch of a one-bar series
at time 0, then a totally failing fetch at time 200. -/
theorem fallback_on_total_failure_witness :
    ("1h" ∈ supportedIntervals ∧
      (DataCache.mk [] [] 95).get 0 ("NQ=F" ++ "_" ++ "1h") = none ∧
      ((fetch_data false (DataCache.mk [] [] 95) 0 "NQ=F" "1h" true []
          (.ok [⟨0, 0, 1, 2, 1, 1, 0⟩] :: [])).state).get 200
        ("NQ=F" ++ "_" ++ "1h") = none ∧
      (DataCache.mk [] [] 95).get_fallback ("NQ=F" ++ "_" ++ "1h") = none ∧
      (DataCache.mk [] [] 95).get 200 ("NQ=F" ++ "_" ++ "1h") = none) ∧
    ((fetch_data false (fetch_data false (DataCache.mk [] [] 95) 0 "NQ=F" "1h" true []
        (.ok [⟨0, 0, 1, 2, 1, 1, 0⟩] :: [])).state 200 "NQ=F" "1h" true []
        [.fail, .fail, .fail]).result = some [⟨0, 0, 1, 2, 1, 1, 0⟩] ∧
      (fetch_data false (DataCache.mk [] [] 95) 200 "NQ=F" "1h" true []
        [.fail, .fail, .fail]).result = none) :=
  ⟨⟨by decide, by decide, by decide, by decide, by decide⟩,
    fallback_on_total_failure (DataCache.mk [] [] 95) (DataCache.mk [] [] 95)
      0 200 200 "NQ=F" "1h" [] [] [] [⟨0, 0, 1, 2, 1, 1, 0⟩] []
      (by decide) (by decide) (by decide) (by decide) (by decide)⟩

/-! ### Hourly block segmenter

Embedding of `calculate_block_boundaries` and the block-selection loop
of `get_hourly_blocks` from
`src/nasdaq_predictor/api/routes/block_routes.py`.  The current instant
is represented by `m`, the exact number of minutes elapsed since the
start of its clock hour (Python computes float minute offsets from
`60 / 7`; these are exact rationals here). -/

def BLOCKS_PER_HOUR : Nat := 7

def MINUTES_PER_BLOCK : ℚ := 60 / 7

structure BlockInfo where
  block_num : Nat
  start_min : ℚ
  end_min : ℚ
  is_complete : Bool
deriving DecidableEq, Repr, Inhabited

def calculate_block_boundaries (m : ℚ) : List BlockInfo :=
  (List.range BLOCKS_PER_HOUR).map fun i =>
    { block_num := i + 1
      start_min := i * MINUTES_PER_BLOCK
      end_min := (i + 1) * MINUTES_PER_BLOCK
      is_complete := decide ((i + 1) * MINUTES_PER_BLOCK ≤ m) }

/-- The per-block completion count of `get_hourly_blocks`. -/
def blocks_completed (m : ℚ) : Nat :=
  ((calculate_block_boundaries m).filter (fun b => b.is_complete)).length

/-- The current-block selection of `get_hourly_blocks`: the first block
that is not complete, or block 7 when every block is complete. -/
def current_block_num (m : ℚ) : Nat :=
  match (calculate_block_boundaries m).find? (fun b => !b.is_complete) with
  | some b => b.block_num
  | none => BLOCKS_PER_HOUR

theorem boundaries_length (m : ℚ) : (calculate_block_boundaries m).length = 7 := by
  simp [calculate_block_boundaries, BLOCKS_PER_HOUR]

theorem boundaries_getElem (m : ℚ) (i : Nat)
    (hi : i < (calculate_block_boundaries m).length) :
    (calculate_block_boundaries m)[i] =
      { block_num := i + 1
        start_min := i * MINUTES_PER_BLOCK
        end_min := (i + 1) * MINUTES_PER_BLOCK
        is_complete := decide ((i + 1) * MINUTES_PER_BLOCK ≤ m) } := by
  simp [calculate_block_boundaries, BLOCKS_PER_HOUR]

theorem find?_first_spec {α : Type _} (p : α → Bool) :
    ∀ (l : List α) (b : α), l.find? p = some b →
      ∃ n, ∃ hn : n < l.length, l[n] = b ∧
        ∀ j, j < n → ∀ hj : j < l.length, p l[j] = false
  | [], b, h => by simp [List.find?] at h
  | a :: l, b, h => by
    by_cases hpa : p a = true
    · rw [List.find?_cons_of_pos _ hpa] at h
      obtain rfl : a = b := by injection h
      exact ⟨0, by simp, by simp, fun j hj _ => absurd hj (Nat.not_lt_zero j)⟩
    · rw [List.find?_cons_of_neg _ hpa] at h
      obtain ⟨n, hn, hb, hprev⟩ := find?_first_spec p l b h
      refine ⟨n + 1, Nat.succ_lt_succ hn, by simpa using hb, ?_⟩
      intro j hj hjl
      cases j with
      | zero => simpa using Bool.eq_false_iff.mpr hpa
      | succ j =>
        have := hprev j (Nat.lt_of_succ_lt_succ hj) (Nat.lt_of_succ_lt_succ hjl)
        simpa using this

/-- C7: every one of the 7 blocks is marked complete exactly when the
instant is at or past the block's end; the reported current block is the
first incomplete block, or the 7th when all are complete; and at 20
minutes past the hour blocks 1 and 2 are complete with current block 3. -/
theorem hourly_blocks_segmentation (m : ℚ) :
    (calculate_block_boundaries m).length = 7 ∧
    (∀ i, ∀ hi : i < (calculate_block_boundaries m).length,
      ((calculate_block_boundaries m)[i].is_complete = true ↔
        (calculate_block_boundaries m)[i].end_min ≤ m)) ∧
    (1 ≤ current_block_num m ∧ current_block_num m ≤ 7) ∧
    (∀ i, ∀ hi : i < (calculate_block_boundaries m).length,
      (calculate_block_boundaries m)[i].block_num < current_block_num m →
      (calculate_block_boundaries m)[i].is_complete = true) ∧
    (current_block_num m < 7 →
      ∀ i, ∀ hi : i < (calculate_block_boundaries m).length,
        (calculate_block_boundaries m)[i].block_num = current_block_num m →
        (calculate_block_boundaries m)[i].is_complete = false) ∧
    ((∀ i, ∀ hi : i < (calculate_block_boundaries m).length,
        (calculate_block_boundaries m)[i].is_complete = true) →
      current_block_num m = 7) ∧
    (blocks_completed 20 = 2 ∧ current_block_num 20 = 3) := by
  have hlen := boundaries_length m
  refine ⟨hlen, ?_, ?_, ?_, ?_, ?_, ?_⟩
  · intro i hi
    rw [boundaries_getElem m i hi]
    simp
  · rcases hf : (calculate_block_boundaries m).find? (fun b => !b.is_complete) with
      _ | b
    · simp [current_block_num, hf, BLOCKS_PER_HOUR]
    · obtain ⟨n, hn, hb, _⟩ := find?_first_spec _ _ _ hf
      have hbn : b.block_num = n + 1 := by
        have h2 := hb
        rw [boundaries_getElem m n hn] at h2
        rw [← h2]
      have hn7 : n < 7 := by rw [boundaries_length] at hn; exact hn
      simp only [current_block_num, hf, hbn]
      omega
  · intro i hi hlt
    rcases hf : (calculate_block_boundaries m).find? (fun b => !b.is_complete) with
      _ | b
    · have hall := List.find?_eq_none.mp hf
      have := hall _ (List.getElem_mem hi)
      simpa using this
    · simp only [current_block_num, hf] at hlt
      obtain ⟨n, hn, hb, hprev⟩ := find?_first_spec _ _ _ hf
      have hbn : b.block_num = n + 1 := by
        have h2 := hb
        rw [boundaries_getElem m n hn] at h2
        rw [← h2]
      have hlt2 : i < n := by
        rw [boundaries_getElem m i hi, hbn] at hlt
        simpa using Nat.lt_of_succ_lt_succ hlt
      have := hprev i hlt2 hi
      simpa using this
  · intro hk i hi hieq
    rcases hf : (calculate_block_boundaries m).find? (fun b => !b.is_complete) with
      _ | b
    · simp [current_block_num, hf, BLOCKS_PER_HOUR] at hk
    · simp only [current_block_num, hf] at hieq
      obtain ⟨n, hn, hb, _⟩ := find?_first_spec _ _ _ hf
      have hp := List.find?_some hf
      have hbn : b.block_num = n + 1 := by
        have h2 := hb
        rw [boundaries_getElem m n hn] at h2
        rw [← h2]
      have hin : i = n := by
        rw [boundaries_getElem m i hi, hbn] at hieq
        simpa using hieq
      subst hin
      rw [hb]
      simpa using hp
  · intro hall
    rcases hf : (calculate_block_boundaries m).find? (fun b => !b.is_complete) with
      _ | b
    · simp [current_block_num, hf, BLOCKS_PER_HOUR]
    · obtain ⟨n, hn, hb, _⟩ := find?_first_spec _ _ _ hf
      have hp := List.find?_some hf
      rw [← hb] at hp
      have := hall n hn
      simp [this] at hp
  · constructor
    · norm_num [blocks_completed, calculate_block_boundaries, BLOCKS_PER_HOUR,
        MINUTES_PER_BLOCK, List.range_succ, List.filter]
    · norm_num [current_block_num, calculate_block_boundaries, BLOCKS_PER_HOUR,
        MINUTES_PER_BLOCK, List.range_succ, List.find?]

/-! ### Session range aggregator

Embedding of `SessionRangeService._calculate_session_range` from
`src/nasdaq_predictor/services/session_range_service.py`.  The current
instant and bar timestamps are ET wall-clock (day index, minute of day)
pairs compared through their total minute count. -/

structure SessionInfo where
  start_hour : Int
  start_min : Int
  end_hour : Int
  end_min : Int
  spans_midnight : Bool
deriving DecidableEq, Repr

def asianSession : SessionInfo := ⟨18, 0, 2, 0, true⟩

def londonSession : SessionInfo := ⟨3, 0, 6, 0, false⟩

def nyAmSession : SessionInfo := ⟨8, 30, 12, 0, false⟩

def nyPmSession : SessionInfo := ⟨14, 30, 16, 0, false⟩

structure SessionRange where
  high : Option ℚ
  low : Option ℚ
  range : Option ℚ
  bar_count : Nat
  is_active : Bool
deriving DecidableEq, Repr

structure WallMinute where
  date : Int
  minute : Int
deriving DecidableEq, Repr

def WallMinute.ts (w : WallMinute) : Int := w.date * 1440 + w.minute

/-- Embedding of `_calculate_session_range` (rounding of the returned
prices to two decimals is presentation only and omitted).  Note the
source both moves `session_start_date` back one day for a
midnight-spanning session and then also adds one more day to
`session_end`, so for the Asian session the time filter runs to 02:00 of
the day after the target date, clipped only by the calendar-date
filter. -/
def _calculate_session_range (df : DF) (s : SessionInfo) (target_date : Int)
    (now : WallMinute) (is_previous : Bool) : SessionRange :=
  let session_start_date :=
    if s.spans_midnight ∧ s.end_hour < s.start_hour then target_date - 1 else target_date
  let session_end_date := target_date
  let session_start := session_start_date * 1440 + s.start_hour * 60 + s.start_min
  let session_end0 := session_end_date * 1440 + s.end_hour * 60 + s.end_min
  let session_end :=
    if s.spans_midnight ∧ s.end_hour < s.start_hour then session_end0 + 1440
    else session_end0
  let session_data := df.filter fun b =>
    (b.date = session_start_date ∨ b.date = session_end_date) ∧
      session_start ≤ b.ts ∧ b.ts < session_end
  match listMax (session_data.map Bar.High), listMin (session_data.map Bar.Low) with
  | some high, some low =>
      { high := some high
        low := some low
        range := some (high - low)
        bar_count := session_data.length
        is_active := !is_previous &&
          (decide (session_start ≤ now.ts) && decide (now.ts < session_end)) }
  | _, _ =>
      { high := none, low := none, range := none, bar_count := 0, is_active := false }

/-- C8 failing input: the spec (and the session's own definition,
18:00–02:00 ET) put the Asian window for target date 10 at
[day 9 18:00, day 10 02:00), but `_calculate_session_range` includes a
bar stamped 05:00 on day 10 — its end bound is day 11 02:00, so every
bar on the target date is counted regardless of hour. -/
theorem asian_session_window_bug :
    (_calculate_session_range [⟨10, 300, 150, 200, 100, 150, 0⟩] asianSession 10
        ⟨10, 600⟩ false).bar_count = 1 ∧
    (_calculate_session_range [⟨10, 300, 150, 200, 100, 150, 0⟩] asianSession 10
        ⟨10, 600⟩ false).high = some 200 ∧
    ¬ (9 * 1440 + 18 * 60 ≤ Bar.ts ⟨10, 300, 150, 200, 100, 150, 0⟩ ∧
        Bar.ts ⟨10, 300, 150, 200, 100, 150, 0⟩ < 10 * 1440 + 2 * 60) := by
  refine ⟨?_, ?_, by decide⟩ <;>
    norm_num [_calculate_session_range, asianSession, listMax, listMin, List.filter,
      Bar.ts, WallMinute.ts]

/-! ### Reference level engine

Embedding of `ReferenceLevelService.calculate_all_levels`,
`_safe_calculate` and the level calculators it wraps, from
`src/nasdaq_predictor/services/reference_level_service.py` and
`src/nasdaq_predictor/analysis/reference_levels.py`.  A reference time
carries its linear ET day index, minute of day and calendar day of month
(the latter only for the `replace(day=1)` in the monthly anchor); the
frames handed to the calculators are already in ET, so the defensive
`tz_localize`/`tz_convert` copies are identities here.  Each calculator
body is the guarded happy path of its Python source (the surrounding
`try`/`except` never fires on these guarded list operations). -/

structure PyTime where
  date : Int
  minuteOfDay : Int
  dayOfMonth : Int
deriving DecidableEq, Repr

def PyTime.ts (t : PyTime) : Int := t.date * 1440 + t.minuteOfDay

def dummyBar : Bar := ⟨0, 0, 0, 0, 0, 0, 0⟩

/-- Embedding of `calculate_daily_open`: first bar at or after midnight
ET of the current day, else the first bar's open. -/
def calculate_daily_open (df : DF) (t : PyTime) : Option ℚ :=
  match df with
  | [] => none
  | b0 :: _ =>
    match df.find? (fun b => decide (t.date * 1440 ≤ b.ts)) with
    | some b => some b.Open
    | none => some b0.Open

/-- Embedding of `calculate_weekly_open`: first bar at or after Monday
00:00 ET of the current week, else the first bar's open. -/
def calculate_weekly_open (df : DF) (t : PyTime) : Option ℚ :=
  match df with
  | [] => none
  | b0 :: _ =>
    match df.find? (fun b => decide ((t.date - t.date.emod 7) * 1440 ≤ b.ts)) with
    | some b => some b.Open
    | none => some b0.Open

/-- Embedding of `calculate_monthly_open`: first bar at or after the
first of the month 00:00 ET, else the first bar's open. -/
def calculate_monthly_open (df : DF) (t : PyTime) : Option ℚ :=
  match df with
  | [] => none
  | b0 :: _ =>
    match df.find? (fun b => decide ((t.date - (t.dayOfMonth - 1)) * 1440 ≤ b.ts)) with
    | some b => some b.Open
    | none => some b0.Open

/-- Embedding of `calculate_7am_open`: first bar at or after 07:00 ET
today, else the last bar's open. -/
def calculate_7am_open (df : DF) (t : PyTime) : Option ℚ :=
  match df.getLast? with
  | none => none
  | some blast =>
    match df.find? (fun b => decide (t.date * 1440 + 420 ≤ b.ts)) with
    | some b => some b.Open
    | none => some blast.Open

/-- Embedding of `calculate_830am_open`: first bar at or after 08:30 ET
today, else the last bar's open. -/
def calculate_830am_open (df : DF) (t : PyTime) : Option ℚ :=
  match df.getLast? with
  | none => none
  | some blast =>
    match df.find? (fun b => decide (t.date * 1440 + 510 ≤ b.ts)) with
    | some b => some b.Open
    | none => some blast.Open

/-- Embedding of `calculate_hourly_open`: `iloc[-hours_back]`, falling
back to the first bar's open when the index is out of range. -/
def calculate_hourly_open (df : DF) (hours_back : Int) : Option ℚ :=
  match df with
  | [] => none
  | b0 :: _ =>
    if 1 ≤ hours_back ∧ hours_back ≤ df.length then
      some (df.getD (df.length - hours_back.toNat) dummyBar).Open
    else some b0.Open

/-- Embedding of `calculate_4hourly_open`: `iloc[-4]` when at least 4
bars exist, else the first bar's open. -/
def calculate_4hourly_open (df : DF) : Option ℚ :=
  match df with
  | [] => none
  | b0 :: _ =>
    if 4 ≤ df.length then some (df.getD (df.length - 4) dummyBar).Open
    else some b0.Open

/-- Embedding of `calculate_15min_open`: `iloc[0]`. -/
def calculate_15min_open (df : DF) : Option ℚ :=
  df.head?.map Bar.Open

/-- Embedding of `calculate_prev_day_high_low`: `iloc[-2]` when at least
2 bars exist, else max/min over the whole frame. -/
def calculate_prev_day_high_low (df : DF) : Option ℚ × Option ℚ :=
  match df with
  | [] => (none, none)
  | _ :: _ =>
    if 2 ≤ df.length then
      let prev := df.getD (df.length - 2) dummyBar
      (some prev.High, some prev.Low)
    else (listMax (df.map Bar.High), listMin (df.map Bar.Low))

/-- Embedding of `calculate_week_high_low`: the last 5 bars (or all bars
when fewer). -/
def calculate_week_high_low (df : DF) : Option ℚ × Option ℚ :=
  match df with
  | [] => (none, none)
  | _ :: _ =>
    let week_data := if 5 ≤ df.length then df.drop (df.length - 5) else df
    (listMax (week_data.map Bar.High), listMin (week_data.map Bar.Low))

/-- Embedding of `get_candle_open_time` from `utils/timezone.py`: floor
of the current time to the enclosing `minutes`-minute candle. -/
def get_candle_open_time (t : PyTime) (minutes : Int) : Int :=
  t.date * 1440 + t.minuteOfDay / minutes * minutes

/-- Embedding of the module-level `calculate_2hourly_open` defined in
`reference_level_service.py`. -/
def svc_calculate_2hourly_open (df : DF) (t : PyTime) : Option ℚ :=
  let c2 := get_candle_open_time t 120
  match df.find? (fun b => decide (c2 ≤ b.ts)) with
  | some b => some b.Open
  | none =>
    match (df.filter (fun b => decide (b.ts ≤ c2))).getLast? with
    | some b => some b.Open
    | none => none

/-- Embedding of the module-level `calculate_previous_hourly_open`
defined in `reference_level_service.py`. -/
def svc_calculate_previous_hourly_open (df : DF) (t : PyTime) : Option ℚ :=
  let c1 := get_candle_open_time t 60
  match df.find? (fun b => decide (c1 - 60 ≤ b.ts) && decide (b.ts < c1)) with
  | some b => some b.Open
  | none => none

/-- Embedding of `get_week_start` from `utils/timezone.py`. -/
def get_week_start (t : PyTime) : Int := (t.date - t.date.emod 7) * 1440

/-- Embedding of the module-level `calculate_prev_week_high` defined in
`reference_level_service.py`. -/
def svc_calculate_prev_week_high (df : DF) (t : PyTime) : Option ℚ :=
  let cws := get_week_start t
  listMax ((df.filter (fun b => decide (cws - 7 * 1440 ≤ b.ts) &&
    decide (b.ts < cws))).map Bar.High)

/-- Embedding of the module-level `calculate_prev_week_low` defined in
`reference_level_service.py`. -/
def svc_calculate_prev_week_low (df : DF) (t : PyTime) : Option ℚ :=
  let cws := get_week_start t
  listMin ((df.filter (fun b => decide (cws - 7 * 1440 ≤ b.ts) &&
    decide (b.ts < cws))).map Bar.Low)

/-! The Python positional-call protocol.  `calculate_all_levels` passes
each wrapped calculator an extra trailing string (the human-readable
level name) as a positional argument; CPython raises `TypeError` before
the callee's body runs whenever more positional arguments are supplied
than the callee has positional parameters. -/

inductive PyArg
  | dfArg (d : DF)
  | timeArg (t : PyTime)
  | strArg (s : String)
deriving DecidableEq, Repr

inductive CallOutcome
  | ok (v : Option ℚ)
  | typeError
deriving DecidableEq, Repr

/-- Calling a Python function that declares `params` positional
parameters, the last `defaults` of which carry default values, with
`args` positional arguments: TypeError when too many or too few
arguments are supplied, otherwise the body runs. -/
def callPy (params defaults : Nat) (body : List PyArg → Option ℚ)
    (args : List PyArg) : CallOutcome :=
  if params < args.length ∨ args.length < params - defaults then .typeError
  else .ok (body args)

/-- Embedding of `ReferenceLevelService._safe_calculate`: any exception,
including the TypeError raised by the call itself, becomes `None`. -/
def _safe_calculate (params defaults : Nat) (body : List PyArg → Option ℚ)
    (args : List PyArg) : Option ℚ :=
  match callPy params defaults body args with
  | .typeError => none
  | .ok v => v

/-! Argument decoders for the wrapped callables.  Each accepts exactly
the well-typed argument lists its Python signature admits; the
one-argument form of a calculator whose second parameter defaults to the
wall clock is modelled as `none` (never exercised by the call sites
below, which always oversupply arguments). -/

def weeklyOpenFun : List PyArg → Option ℚ
  | [.dfArg d, .timeArg t] => calculate_weekly_open d t
  | _ => none

def monthlyOpenFun : List PyArg → Option ℚ
  | [.dfArg d, .timeArg t] => calculate_monthly_open d t
  | _ => none

def dailyOpenFun : List PyArg → Option ℚ
  | [.dfArg d, .timeArg t] => calculate_daily_open d t
  | _ => none

def open830Fun : List PyArg → Option ℚ
  | [.dfArg d, .timeArg t] => calculate_830am_open d t
  | _ => none

def open7Fun : List PyArg → Option ℚ
  | [.dfArg d, .timeArg t] => calculate_7am_open d t
  | _ => none

def fourHourlyFun : List PyArg → Option ℚ
  | [.dfArg d] => calculate_4hourly_open d
  | _ => none

def twoHourlyFun : List PyArg → Option ℚ
  | [.dfArg d, .timeArg t] => svc_calculate_2hourly_open d t
  | _ => none

def hourlyOpenFun : List PyArg → Option ℚ
  | [.dfArg d] => calculate_hourly_open d 1
  | _ => none

def prevHourlyFun : List PyArg → Option ℚ
  | [.dfArg d, .timeArg t] => svc_calculate_previous_hourly_open d t
  | _ => none

def fifteenMinFun : List PyArg → Option ℚ
  | [.dfArg d] => calculate_15min_open d
  | _ => none

def prevDayHighLambda : List PyArg → Option ℚ
  | [.dfArg d] => (calculate_prev_day_high_low d).1
  | _ => none

def prevDayLowLambda : List PyArg → Option ℚ
  | [.dfArg d] => (calculate_prev_day_high_low d).2
  | _ => none

def prevWeekHighFun : List PyArg → Option ℚ
  | [.dfArg d, .timeArg t] => svc_calculate_prev_week_high d t
  | _ => none

def prevWeekLowFun : List PyArg → Option ℚ
  | [.dfArg d, .timeArg t] => svc_calculate_prev_week_low d t
  | _ => none

def weekHighLambda : List PyArg → Option ℚ
  | [.dfArg d] => (calculate_week_high_low d).1
  | _ => none

def weekLowLambda : List PyArg → Option ℚ
  | [.dfArg d] => (calculate_week_high_low d).2
  | _ => none

/-- The 16-entry `levels` dictionary of `calculate_all_levels`, built
with the exact positional argument lists of the source call sites
(all four interval fetches having succeeded, so every frame is
present). -/
def levelsList (hourly daily minute_df weekly : DF) (t : PyTime) :
    List (String × Option ℚ) :=
  [("weekly_open",
      _safe_calculate 2 1 weeklyOpenFun [.dfArg hourly, .timeArg t, .strArg "Weekly Open"]),
   ("monthly_open",
      _safe_calculate 2 1 monthlyOpenFun [.dfArg hourly, .timeArg t, .strArg "Monthly Open"]),
   ("daily_open_midnight",
      _safe_calculate 2 0 dailyOpenFun [.dfArg hourly, .timeArg t, .strArg "Midnight Open"]),
   ("ny_open_0830",
      _safe_calculate 2 0 open830Fun [.dfArg hourly, .timeArg t, .strArg "NY Open (08:30)"]),
   ("ny_open_0700",
      _safe_calculate 2 0 open7Fun [.dfArg hourly, .timeArg t, .strArg "Pre-NY Open (07:00)"]),
   ("four_hour_open",
      _safe_calculate 1 0 fourHourlyFun [.dfArg hourly, .timeArg t, .strArg "4H Open"]),
   ("two_hour_open",
      _safe_calculate 2 0 twoHourlyFun [.dfArg hourly, .timeArg t, .strArg "2H Open"]),
   ("hourly_open",
      _safe_calculate 2 1 hourlyOpenFun [.dfArg hourly, .timeArg t, .strArg "1H Open"]),
   ("previous_hourly_open",
      _safe_calculate 2 0 prevHourlyFun
        [.dfArg hourly, .timeArg t, .strArg "Previous Hour Open"]),
   ("fifteen_min_open",
      _safe_calculate 1 0 fifteenMinFun [.dfArg minute_df, .timeArg t, .strArg "15min Open"]),
   ("previous_day_high",
      _safe_calculate 1 0 prevDayHighLambda [.dfArg daily, .strArg "Previous Day High"]),
   ("previous_day_low",
      _safe_calculate 1 0 prevDayLowLambda [.dfArg daily, .strArg "Previous Day Low"]),
   ("previous_week_high",
      _safe_calculate 2 0 prevWeekHighFun
        [.dfArg daily, .timeArg t, .strArg "Previous Week High"]),
   ("previous_week_low",
      _safe_calculate 2 0 prevWeekLowFun
        [.dfArg daily, .timeArg t, .strArg "Previous Week Low"]),
   ("weekly_high",
      _safe_calculate 1 0 weekHighLambda [.dfArg daily, .strArg "Weekly High"]),
   ("weekly_low",
      _safe_calculate 1 0 weekLowLambda [.dfArg daily, .strArg "Weekly Low"])]

structure SignalEntry where
  price : ℚ
  distance : ℚ
  distance_pct : ℚ
  proximity : Proximity
  signal : Int
deriving DecidableEq, Repr

/-- One entry of the `signals` dictionary (rounding omitted). -/
def signalEntry (current_price level_price : ℚ) : SignalEntry :=
  { price := level_price
    distance := current_price - level_price
    distance_pct :=
      if level_price ≠ 0 then (current_price - level_price) / level_price * 100 else 0
    proximity := (calculate_signal current_price level_price).1
    signal := (calculate_signal current_price level_price).2 }

/-- The `signals` dictionary: levels that resolved to `None` get a
`None` signal. -/
def signalsList (current_price : ℚ) (levels : List (String × Option ℚ)) :
    List (String × Option SignalEntry) :=
  levels.map fun kv => (kv.1, kv.2.map (signalEntry current_price))

/-- The closest-level fold of `calculate_all_levels`: smallest absolute
distance among resolved levels, starting from infinity (so the first
resolved level always wins over the initial `None`). -/
def closest_level (current_price : ℚ) (levels : List (String × Option ℚ)) :
    Option (String × ℚ × ℚ) :=
  levels.foldl
    (fun acc kv =>
      match kv.2 with
      | none => acc
      | some lp =>
        let dist := |current_price - lp|
        match acc with
        | none => some (kv.1, lp, dist)
        | some best => if dist < best.2.2 then some (kv.1, lp, dist) else some best)
    none

/-- C2: with all four interval fetches succeeding, every one of the 16
reference levels is `None` — each `_safe_calculate` call site passes the
level name as an extra positional argument, so the wrapped calculator
raises TypeError before running — and consequently every signal is
`None` and the closest level is `None`. -/
theorem all_reference_levels_none (hourly daily minute_df weekly : DF)
    (t : PyTime) (price : ℚ) :
    (levelsList hourly daily minute_df weekly t).length = 16 ∧
    (∀ kv ∈ levelsList hourly daily minute_df weekly t, kv.2 = none) ∧
    (∀ kv ∈ signalsList price (levelsList hourly daily minute_df weekly t),
      kv.2 = none) ∧
    closest_level price (levelsList hourly daily minute_df weekly t) = none := by
  refine ⟨rfl, ?_, ?_, ?_⟩ <;>
    simp [levelsList, signalsList, closest_level, _safe_calculate, callPy]

end MidOpen

